import Mathlib

/-
Verification of the JavaScriptCore recursive-descent parser core
(Source/JavaScriptCore/parser/Parser.cpp of qt/qtwebkit).

The development shallowly embeds the parser fragments that the verified
properties talk about.  Pure decision logic is translated function by
function from Parser.cpp; subsidiary productions that the fragments invoke
(for example parseAssignmentExpression inside parseYieldExpression) are
abstracted as oracle inputs carrying their observable outcome, and the
token stream is modelled as a list of tagged tokens.  Helpers that live in
the missing Parser.h / Scope header are modelled from the specification and
are marked "Modelled from the spec" in their doc comments.
-/

set_option linter.unusedVariables false

deriving instance DecidableEq for Except

namespace JSC

/-- Token kinds used by the embedded parser fragments (JSTokenType in the
lexer interface; only the kinds the verified productions inspect are
carried). -/
inductive JSTokenType where
  | IDENT
  | LET
  | YIELD
  | CONSTTOKEN
  | CLASSTOKEN
  | VAR
  | OPENBRACE
  | CLOSEBRACE
  | OPENBRACKET
  | CLOSEBRACKET
  | OPENPAREN
  | CLOSEPAREN
  | DOT
  | SEMICOLON
  | COMMA
  | EOFTOK
  | BREAK
  | CONTINUE
  | STRING
  | TIMES
  | ARROWFUNCTION
  | EQUAL
  | INTOKEN
  | FOR
  | OTHER
  deriving DecidableEq, Repr

/-- One lexer token: its kind, whether a line terminator preceded it
(the lexer flag read back by prevTerminator()), and the interned
identifier payload for IDENT tokens. -/
structure JSToken where
  ttype : JSTokenType
  afterLineTerminator : Bool := false
  identValue : String := ""
  deriving DecidableEq, Repr

/-- The end-of-input token: the lexer yields EOFTOK past the end. -/
def eofToken : JSToken := { ttype := JSTokenType.EOFTOK }

/-- The token at a given position of the token stream (the lexer keeps
producing EOFTOK once the input is exhausted). -/
def tokenAt (tokens : List JSToken) (pos : Nat) : JSToken :=
  (tokens.drop pos).headD eofToken

/-- logError with shouldPrintToken = false and a single value
(Parser.cpp lines 96-108): the message is printed followed by ".". -/
def logErrorMessage (value1 : String) : String := value1 ++ "."

/-- Stand-in for printUnexpectedTokenText-based messages (logError with
shouldPrintToken = true); the token-dependent text is abstracted. -/
def unexpectedTokenMessage : String := "Unexpected token."

/-- allowAutomaticSemicolon (Parser.cpp lines 398-402): an automatic
semicolon is permitted before a closing brace, at end of input, or after
a line terminator. -/
def allowAutomaticSemicolon (tokens : List JSToken) (pos : Nat) : Bool :=
  (tokenAt tokens pos).ttype = JSTokenType.CLOSEBRACE
    || (tokenAt tokens pos).ttype = JSTokenType.EOFTOK
    || (tokenAt tokens pos).afterLineTerminator

/-- Modelled from the spec: autoSemiColon of the missing Parser.h consumes
an explicit semicolon, otherwise asks allowAutomaticSemicolon (spec 4.9,
"Automatic semicolon insertion").  Returns the position after the optional
semicolon, or none when no semicolon (explicit or automatic) is legal
here. -/
def autoSemiColon (tokens : List JSToken) (pos : Nat) : Option Nat :=
  if (tokenAt tokens pos).ttype = JSTokenType.SEMICOLON then some (pos + 1)
  else if allowAutomaticSemicolon tokens pos then some pos
  else none

/- ===================== C7: let disambiguation ===================== -/

/-- DeclarationType of Parser.h, as used by parseStatementListItem and
parseVariableDeclarationList. -/
inductive DeclarationType where
  | varDeclaration
  | letDeclaration
  | constDeclaration
  deriving DecidableEq, Repr

/-- Which production parseStatementListItem dispatches to for the token at
hand. -/
inductive StatementListItemChoice where
  | variableDeclaration (declarationType : DeclarationType)
  | expressionOrLabelStatement
  | classDeclaration
  | statementDispatch
  deriving DecidableEq, Repr

/-- parseStatementListItem dispatch (Parser.cpp lines 536-579).  For LET in
non-strict mode the parser takes a save point, advances one token, checks
whether the next token is IDENT, LET, YIELD, an opening brace or an opening
bracket, and restores the save point; the returned position equals the
input position on every path (the save point is always restored). -/
def parseStatementListItemDispatch (strictMode : Bool) (tokens : List JSToken)
    (pos : Nat) : StatementListItemChoice × Nat :=
  match (tokenAt tokens pos).ttype with
  | JSTokenType.CONSTTOKEN =>
      (StatementListItemChoice.variableDeclaration DeclarationType.constDeclaration, pos)
  | JSTokenType.LET =>
      let shouldParseVariableDeclaration :=
        if strictMode then true
        else
          let t := (tokenAt tokens (pos + 1)).ttype
          t = JSTokenType.IDENT || t = JSTokenType.LET || t = JSTokenType.YIELD
            || t = JSTokenType.OPENBRACE || t = JSTokenType.OPENBRACKET
      if shouldParseVariableDeclaration then
        (StatementListItemChoice.variableDeclaration DeclarationType.letDeclaration, pos)
      else
        (StatementListItemChoice.expressionOrLabelStatement, pos)
  | JSTokenType.CLASSTOKEN => (StatementListItemChoice.classDeclaration, pos)
  | _ => (StatementListItemChoice.statementDispatch, pos)

/- ===================== C9: break / continue ===================== -/

/-- Modelled from the spec: the scope bookkeeping consulted by break and
continue validity checks.  startLoop/endLoop and startSwitch/endSwitch of
the missing Parser.h maintain loop and switch nesting counters, and each
scope carries a label map name -> is-loop (spec section 3, Scope entity,
and 4.9 "Labels"). -/
structure LabelScopeInfo where
  loopDepth : Nat
  switchDepth : Nat
  labels : List (String × Bool)
  deriving DecidableEq, Repr

/-- Modelled from the spec: breakIsValid of the missing Parser.h; a
label-less break is valid inside a switch or a loop (the error message at
Parser.cpp line 1297 names exactly these two contexts). -/
def breakIsValid (s : LabelScopeInfo) : Bool :=
  decide (0 < s.loopDepth) || decide (0 < s.switchDepth)

/-- Modelled from the spec: continueIsValid of the missing Parser.h; a
label-less continue is valid inside a loop (Parser.cpp line 1319). -/
def continueIsValid (s : LabelScopeInfo) : Bool :=
  decide (0 < s.loopDepth)

/-- Modelled from the spec: getLabel of the missing Parser.h looks a label
name up in the scope label map and yields its is-loop flag. -/
def getLabel (s : LabelScopeInfo) (name : String) : Option Bool :=
  (s.labels.find? (fun p => p.1 = name)).map (fun p => p.2)

/-- parseBreakStatement (Parser.cpp lines 1287-1307).  The current token is
BREAK at pos.  Yields the optional target label and the position after the
statement. -/
def parseBreakStatement (scope : LabelScopeInfo) (tokens : List JSToken)
    (pos : Nat) : Except String (Option String × Nat) :=
  let pos := pos + 1
  match autoSemiColon tokens pos with
  | some p =>
      if breakIsValid scope then Except.ok (none, p)
      else Except.error (logErrorMessage
        "\x27break\x27 is only valid inside a switch or loop statement")
  | none =>
      if (tokenAt tokens pos).ttype = JSTokenType.IDENT then
        let ident := (tokenAt tokens pos).identValue
        match getLabel scope ident with
        | none => Except.error (logErrorMessage
            ("Cannot use the undeclared label \x27" ++ ident ++ "\x27"))
        | some _ =>
            match autoSemiColon tokens (pos + 1) with
            | some p => Except.ok (some ident, p)
            | none => Except.error (logErrorMessage
                "Expected a \x27;\x27 following a targeted break statement")
      else
        Except.error (logErrorMessage
          "Expected an identifier as the target for a break statement")

/-- parseContinueStatement (Parser.cpp lines 1309-1331).  The current token
is CONTINUE at pos. -/
def parseContinueStatement (scope : LabelScopeInfo) (tokens : List JSToken)
    (pos : Nat) : Except String (Option String × Nat) :=
  let pos := pos + 1
  match autoSemiColon tokens pos with
  | some p =>
      if continueIsValid scope then Except.ok (none, p)
      else Except.error (logErrorMessage
        "\x27continue\x27 is only valid inside a loop statement")
  | none =>
      if (tokenAt tokens pos).ttype = JSTokenType.IDENT then
        let ident := (tokenAt tokens pos).identValue
        match getLabel scope ident with
        | none => Except.error (logErrorMessage
            ("Cannot use the undeclared label \x27" ++ ident ++ "\x27"))
        | some isLoop =>
            if !isLoop then
              Except.error (logErrorMessage
                ("Cannot continue to the label \x27" ++ ident
                  ++ "\x27 as it is not targeting a loop"))
            else
              match autoSemiColon tokens (pos + 1) with
              | some p => Except.ok (some ident, p)
              | none => Except.error (logErrorMessage
                  "Expected a \x27;\x27 following a targeted continue statement")
      else
        Except.error (logErrorMessage
          "Expected an identifier as the target for a continue statement")

/- ===================== C10: yield ===================== -/

/-- FunctionParsePhase (Parser.h state mirrored by SetForScope in
Parser.cpp). -/
inductive FunctionParsePhase where
  | body
  | parameters
  deriving DecidableEq, Repr

/-- The shape of the yield expression the parser builds. -/
inductive YieldProduced where
  | noArgument
  | withArgument (delegate : Bool)
  deriving DecidableEq, Repr

/-- parseYieldExpression (Parser.cpp lines 3058-3089).  The current token is
YIELD at pos.  The outcome of the speculative parseAssignmentExpression for
the argument is abstracted as the oracle input argumentParse: on success it
returns the position after the argument expression.  On argument failure the
parser restores the save point taken at the yield token (which also discards
the speculative error state captured by the save point, spec section 3:
SavePoint snapshots include the error state) and consumes just the yield
token. -/
def parseYieldExpression (isGeneratorScope : Bool) (phase : FunctionParsePhase)
    (tokens : List JSToken) (pos : Nat)
    (argumentParse : Except String Nat) : Except String (YieldProduced × Nat) :=
  if !isGeneratorScope then
    Except.error (logErrorMessage "Cannot use yield expression out of generator")
  else if phase = FunctionParsePhase.parameters then
    Except.error (logErrorMessage "Cannot use yield expression within parameters")
  else
    let savePoint := pos
    let pos := pos + 1
    if (tokenAt tokens pos).afterLineTerminator then
      Except.ok (YieldProduced.noArgument, pos)
    else
      let delegate := (tokenAt tokens pos).ttype = JSTokenType.TIMES
      match argumentParse with
      | Except.error _ => Except.ok (YieldProduced.noArgument, savePoint + 1)
      | Except.ok endPos => Except.ok (YieldProduced.withArgument delegate, endPos)

/- ===================== C8: stack exhaustion ===================== -/

/-- Modelled from the spec: canRecurse of the missing Parser.h checks the
available stack budget before each recursive descent (spec section 5,
"Recursion depth"); it is modelled as an explicit depth budget that each
nested production entry decrements.  The production body follows
parsePrimaryExpression (Parser.cpp lines 3597-3623): failIfStackOverflow at
entry; an OPENPAREN recurses into the nested expression and then requires a
CLOSEPAREN; an IDENT is a complete primary expression.  The parser consumes
the remaining token list and returns the unconsumed suffix. -/
def parsePrimaryExpressionDepth : Nat → List JSToken → Except String (List JSToken)
  | 0, _ => Except.error (logErrorMessage "Stack exhausted")
  | Nat.succ budget, tokens =>
      match tokens with
      | [] => Except.error (logErrorMessage "Cannot parse expression")
      | t :: rest =>
          match t.ttype with
          | JSTokenType.OPENPAREN =>
              match parsePrimaryExpressionDepth budget rest with
              | Except.error e => Except.error e
              | Except.ok rest2 =>
                  match rest2 with
                  | t2 :: rest3 =>
                      if t2.ttype = JSTokenType.CLOSEPAREN then Except.ok rest3
                      else Except.error (logErrorMessage
                        "Expected \x27)\x27 to end a compound expression")
                  | [] => Except.error (logErrorMessage
                      "Expected \x27)\x27 to end a compound expression")
          | JSTokenType.IDENT => Except.ok rest
          | _ => Except.error (logErrorMessage "Cannot parse expression")

/-- The pathological input of spec section 5: n opening parentheses around a
single identifier. -/
def nestedParens (n : Nat) : List JSToken :=
  List.replicate n { ttype := JSTokenType.OPENPAREN }
    ++ [{ ttype := JSTokenType.IDENT, identValue := "x" }]
    ++ List.replicate n { ttype := JSTokenType.CLOSEPAREN }

/- ===================== C5: duplicate parameters ===================== -/

/-- DeclarationResult bitmask (Parser.h interface, spec section 4.2): a
declaration attempt reports whether the name is invalid in strict mode and
whether it duplicates an existing declaration.  Valid is the empty mask. -/
structure DeclarationResultMask where
  invalidStrictMode : Bool
  invalidDuplicateDeclaration : Bool
  deriving DecidableEq, Repr

/-- The Valid declaration result (no bit set). -/
def DeclarationResultMask.valid : DeclarationResultMask :=
  { invalidStrictMode := false, invalidDuplicateDeclaration := false }

/-- isEvalOrArguments on an interned identifier. -/
def isEvalOrArguments (name : String) : Bool :=
  name = "eval" || name = "arguments"

/-- Modelled from the spec: the parameter-declaring part of a Scope (the
Scope class lives in the missing Parser.h).  Only the set of declared
parameter names is carried. -/
structure ParameterScope where
  declaredParameters : List String
  deriving DecidableEq, Repr

/-- Modelled from the spec: Scope declareParameter (spec section 4.2).  A
repeated name yields the duplicate bit; eval, arguments and duplicates also
invalidate strict mode, so the strict bit is set for them. -/
def declareParameter (scope : ParameterScope) (name : String) :
    DeclarationResultMask × ParameterScope :=
  let duplicate := scope.declaredParameters.contains name
  ({ invalidStrictMode := isEvalOrArguments name || duplicate,
     invalidDuplicateDeclaration := duplicate },
   { declaredParameters := name :: scope.declaredParameters })

/-- The parser state threaded through parameter parsing: strict flag, the
name of the last function parsed (lastFunctionName), the parameter scope and
the recorded duplicate parameter, if any. -/
structure ParameterParserState where
  strictMode : Bool
  lastFunctionName : Option String
  scope : ParameterScope
  duplicateParameter : Option String
  deriving DecidableEq, Repr

/-- declareRestOrNormalParameter (Parser.cpp lines 749-771).  In strict mode
an invalid-strict declaration fails with one of four messages, checked in
source order; otherwise a duplicate is only recorded in duplicateParameter
for the caller to judge later ("It is not always an error to define a
duplicate parameter.  It is only an error when there are default parameter
values or destructuring parameters", Parser.cpp lines 763-765). -/
def declareRestOrNormalParameter (st : ParameterParserState) (name : String) :
    Except String ParameterParserState :=
  let declared := declareParameter st.scope name
  let declarationResult := declared.1
  if declarationResult.invalidStrictMode && st.strictMode then
    if isEvalOrArguments name then
      Except.error (logErrorMessage
        ("Cannot destructure to a parameter name \x27" ++ name ++ "\x27 in strict mode"))
    else if st.lastFunctionName = some name then
      Except.error (logErrorMessage
        ("Cannot declare a parameter named \x27" ++ name
          ++ "\x27 as it shadows the name of a strict mode function"))
    else if st.scope.declaredParameters.contains name then
      Except.error (logErrorMessage
        ("Cannot declare a parameter named \x27" ++ name
          ++ "\x27 in strict mode as it has already been declared"))
    else
      Except.error (logErrorMessage
        ("Cannot declare a parameter named \x27" ++ name ++ "\x27 in strict mode"))
  else
    Except.ok { st with
      scope := declared.2,
      duplicateParameter :=
        if declarationResult.invalidDuplicateDeclaration then some name
        else st.duplicateParameter }

/-- One entry of a formal parameter list, as delivered by the subsidiary
pattern parser: either a rest parameter, or a normal parameter that is a
plain identifier (isPattern = false, names a singleton) or a destructuring
pattern binding the listed names (isPattern = true, which is what makes
parseDestructuringPattern set the hasDestructuringPattern flag). -/
inductive ParamItem where
  | rest (name : String)
  | norm (isPattern : Bool) (names : List String) (hasDefault : Bool)
  deriving DecidableEq, Repr

/-- Declares every name bound by a (destructuring) parameter pattern, in
order, via declareRestOrNormalParameter (createBindingPattern with
DestructureToParameters, Parser.cpp lines 800-804). -/
def declareParameterNames (st : ParameterParserState) :
    List String → Except String ParameterParserState
  | [] => Except.ok st
  | name :: rest =>
      match declareRestOrNormalParameter st name with
      | Except.error e => Except.error e
      | Except.ok st2 => declareParameterNames st2 rest

/-- The failIfDuplicateIfViolation macro of parseFormalParameters
(Parser.cpp lines 1691-1696): when a duplicate parameter has been recorded,
fail if the current parameter has a default value, if a destructuring
pattern has been seen, or if the current parameter is a rest parameter,
in that order. -/
def failIfDuplicateIfViolation (duplicateParameter : Option String)
    (hasDefault hasDestructuringPattern isRestParameter : Bool) : Option String :=
  match duplicateParameter with
  | none => none
  | some d =>
      if hasDefault then
        some (logErrorMessage ("Duplicate parameter \x27" ++ d
          ++ "\x27 not allowed in function with default parameter values"))
      else if hasDestructuringPattern then
        some (logErrorMessage ("Duplicate parameter \x27" ++ d
          ++ "\x27 not allowed in function with destructuring parameters"))
      else if isRestParameter then
        some (logErrorMessage ("Duplicate parameter \x27" ++ d
          ++ "\x27 not allowed in function with a rest parameter"))
      else none

/-- The loop of parseFormalParameters (Parser.cpp lines 1688-1730) over the
remaining parameter entries.  hasDestructuringPattern is sticky across
iterations; the duplicate check runs each iteration with the current
default value of the current parameter; a rest parameter must be last and ends the
loop without incrementing parameterCount. -/
def parseFormalParametersLoop (st : ParameterParserState)
    (hasDestructuringPattern : Bool) (parameterCount : Nat) :
    List ParamItem → Except String (Nat × ParameterParserState)
  | [] => Except.ok (parameterCount, st)
  | ParamItem.rest name :: rest =>
      match declareRestOrNormalParameter st name with
      | Except.error e => Except.error e
      | Except.ok st2 =>
          if !rest.isEmpty then
            Except.error (logErrorMessage
              "Rest parameter should be the last parameter in a function declaration")
          else
            match failIfDuplicateIfViolation st2.duplicateParameter false
                hasDestructuringPattern true with
            | some m => Except.error m
            | none => Except.ok (parameterCount, st2)
  | ParamItem.norm isPattern names hasDefault :: rest =>
      let hasDestructuringPattern2 := hasDestructuringPattern || isPattern
      match declareParameterNames st names with
      | Except.error e => Except.error e
      | Except.ok st2 =>
          match failIfDuplicateIfViolation st2.duplicateParameter hasDefault
              hasDestructuringPattern2 false with
          | some m => Except.error m
          | none =>
              parseFormalParametersLoop st2 hasDestructuringPattern2
                (parameterCount + 1) rest

/-- parseFormalParameters (Parser.cpp lines 1688-1730), starting from a
fresh hasDestructuringPattern / isRestParameter / duplicateParameter state;
yields the parameter count. -/
def parseFormalParameters (strictMode : Bool) (lastFunctionName : Option String)
    (items : List ParamItem) : Except String (Nat × ParameterParserState) :=
  parseFormalParametersLoop
    { strictMode := strictMode, lastFunctionName := lastFunctionName,
      scope := { declaredParameters := [] }, duplicateParameter := none }
    false 0 items

/- ===================== C6: const initializers ===================== -/

/-- VarDeclarationListContext (Parser.h interface): the two contexts
parseVariableDeclarationList distinguishes. -/
inductive VarDeclarationListContext where
  | varDeclarationContext
  | forLoopContext
  deriving DecidableEq, Repr

/-- One declarator of a declaration list: a plain identifier binding or a
destructuring pattern, each with or without an initializer. -/
inductive Declarator where
  | ident (name : String) (hasInitializer : Bool)
  | pattern (hasInitializer : Bool)
  deriving DecidableEq, Repr

/-- Modelled from the spec: the variable-declaring part of a Scope (spec
section 4.2): declared var names and declared lexical names. -/
structure DeclarationScope where
  declaredVariables : List String
  lexicalVariables : List String
  deriving DecidableEq, Repr

/-- Modelled from the spec: Scope declareVariable (spec section 4.2).  A
var declaration is a duplicate only when it would shadow a lexical binding;
a let/const declaration is a duplicate when the name is already declared
lexically or as a var; eval and arguments invalidate strict mode. -/
def declareVariable (scope : DeclarationScope) (name : String)
    (declarationType : DeclarationType) : DeclarationResultMask × DeclarationScope :=
  match declarationType with
  | DeclarationType.varDeclaration =>
      let duplicate := scope.lexicalVariables.contains name
      ({ invalidStrictMode := isEvalOrArguments name,
         invalidDuplicateDeclaration := duplicate },
       { scope with declaredVariables := name :: scope.declaredVariables })
  | _ =>
      let duplicate := scope.lexicalVariables.contains name
        || scope.declaredVariables.contains name
      ({ invalidStrictMode := isEvalOrArguments name,
         invalidDuplicateDeclaration := duplicate },
       { scope with lexicalVariables := name :: scope.lexicalVariables })

/-- The outcome of parseVariableDeclarationList that its callers inspect:
the declaration counter, the const-without-initializer flag for for-loop
headers, whether an initializer was parsed (the lastInitializer out
parameter, assigned - and never reset - whenever an initializer is parsed),
whether the last entry was a plain binding, and the updated scope. -/
structure VarDeclListResult where
  declarations : Nat
  forLoopConstDoesNotHaveInitializer : Bool
  lastInitializerSet : Bool
  lastIsBindingNode : Bool
  scope : DeclarationScope
  deriving DecidableEq, Repr

/-- The loop of parseVariableDeclarationList (Parser.cpp lines 653-747) over
the declarators.  For a plain identifier: the "let as lexical name" check,
declareVariable with its strict and duplicate failures, then either an
initializer or the const-must-have-initializer rule, which in
ForLoopContext only raises the forLoopConstDoesNotHaveInitializer flag.
For a destructuring pattern: a missing initializer is fatal in
VarDeclarationContext. -/
def parseVariableDeclarationListLoop (strictMode : Bool)
    (declarationListContext : VarDeclarationListContext)
    (declarationType : DeclarationType) (acc : VarDeclListResult) :
    List Declarator → Except String VarDeclListResult
  | [] => Except.ok acc
  | Declarator.ident name hasInitializer :: rest =>
      let acc := { acc with declarations := acc.declarations + 1 }
      if name = "let"
          && (declarationType = DeclarationType.letDeclaration
            || declarationType = DeclarationType.constDeclaration) then
        Except.error (logErrorMessage
          "Can\x27t use \x27let\x27 as an identifier name for a LexicalDeclaration")
      else
        let declared := declareVariable acc.scope name declarationType
        let declarationResult := declared.1
        if declarationResult.invalidStrictMode && strictMode then
          Except.error (logErrorMessage
            ("Cannot declare a variable named " ++ name ++ " in strict mode"))
        else if declarationResult.invalidDuplicateDeclaration then
          match declarationType with
          | DeclarationType.letDeclaration =>
              Except.error (logErrorMessage
                ("Cannot declare a let variable twice: \x27" ++ name ++ "\x27"))
          | DeclarationType.constDeclaration =>
              Except.error (logErrorMessage
                ("Cannot declare a const variable twice: \x27" ++ name ++ "\x27"))
          | DeclarationType.varDeclaration =>
              Except.error (logErrorMessage
                ("Cannot declare a var variable that shadows a let/const/class variable: \x27"
                  ++ name ++ "\x27"))
        else
          let acc := { acc with scope := declared.2, lastIsBindingNode := true }
          if hasInitializer then
            parseVariableDeclarationListLoop strictMode declarationListContext
              declarationType { acc with lastInitializerSet := true } rest
          else
            let acc :=
              if declarationListContext = VarDeclarationListContext.forLoopContext
                  && declarationType = DeclarationType.constDeclaration then
                { acc with forLoopConstDoesNotHaveInitializer := true }
              else acc
            if declarationListContext ≠ VarDeclarationListContext.forLoopContext
                && declarationType = DeclarationType.constDeclaration then
              Except.error (logErrorMessage
                ("const declared variable \x27" ++ name
                  ++ "\x27 must have an initializer"))
            else
              parseVariableDeclarationListLoop strictMode declarationListContext
                declarationType acc rest
  | Declarator.pattern hasInitializer :: rest =>
      let acc := { acc with declarations := acc.declarations + 1,
                            lastIsBindingNode := false }
      if declarationListContext = VarDeclarationListContext.varDeclarationContext
          && !hasInitializer then
        Except.error (logErrorMessage
          "Expected an initializer in destructuring variable declaration")
      else
        let acc :=
          if hasInitializer then { acc with lastInitializerSet := true } else acc
        parseVariableDeclarationListLoop strictMode declarationListContext
          declarationType acc rest

/-- parseVariableDeclarationList (Parser.cpp lines 653-747) from a fresh
counter state. -/
def parseVariableDeclarationList (strictMode : Bool)
    (scope : DeclarationScope) (declarationListContext : VarDeclarationListContext)
    (declarationType : DeclarationType) (declarators : List Declarator) :
    Except String VarDeclListResult :=
  parseVariableDeclarationListLoop strictMode declarationListContext declarationType
    { declarations := 0, forLoopConstDoesNotHaveInitializer := false,
      lastInitializerSet := false, lastIsBindingNode := false, scope := scope }
    declarators

/-- What follows the declaration list inside a for-loop header. -/
inductive ForHeaderTail where
  | semicolonToken
  | inToken
  | ofIdent
  deriving DecidableEq, Repr

/-- The loop kind parseForStatement ends up building. -/
inductive ForLoopKind where
  | standardFor
  | forIn
  | forOf
  deriving DecidableEq, Repr

/-- The declaration-headed part of parseForStatement (Parser.cpp lines
1125-1285 for the var/let/const case): parse the declaration list in
ForLoopContext, then dispatch on the next token.  A semicolon selects the
standard for loop, which rejects a const declaration whose
forLoopConstDoesNotHaveInitializer flag was raised (line 1221).  Otherwise
the enumeration form requires exactly one declaration (line 1159), rejects
initializers in strict mode (line 1160) and non-binding targets with an
initializer (lines 1162-1163), and a for-of enumeration rejects
initializers outright (line 1171). -/
def parseForStatementDeclarationHeader (strictMode : Bool)
    (scope : DeclarationScope) (declarationType : DeclarationType)
    (declarators : List Declarator) (tail : ForHeaderTail) :
    Except String ForLoopKind :=
  let isConstDeclaration := declarationType = DeclarationType.constDeclaration
  match parseVariableDeclarationList strictMode scope
      VarDeclarationListContext.forLoopContext declarationType declarators with
  | Except.error e => Except.error e
  | Except.ok res =>
      match tail with
      | ForHeaderTail.semicolonToken =>
          if res.forLoopConstDoesNotHaveInitializer && isConstDeclaration then
            Except.error (logErrorMessage
              "const variables in for loops must have initializers")
          else Except.ok ForLoopKind.standardFor
      | ForHeaderTail.inToken =>
          if res.declarations ≠ 1 then
            Except.error (logErrorMessage
              "can only declare a single variable in an enumeration")
          else if res.lastInitializerSet && strictMode then
            Except.error (logErrorMessage
              "Cannot use initialiser syntax in a strict mode enumeration")
          else if res.lastInitializerSet && !res.lastIsBindingNode then
            Except.error (logErrorMessage
              "Cannot use initialiser syntax when binding to a pattern during enumeration")
          else Except.ok ForLoopKind.forIn
      | ForHeaderTail.ofIdent =>
          if res.declarations ≠ 1 then
            Except.error (logErrorMessage
              "can only declare a single variable in an enumeration")
          else if res.lastInitializerSet && strictMode then
            Except.error (logErrorMessage
              "Cannot use initialiser syntax in a strict mode enumeration")
          else if res.lastInitializerSet && !res.lastIsBindingNode then
            Except.error (logErrorMessage
              "Cannot use initialiser syntax when binding to a pattern during enumeration")
          else if res.lastInitializerSet then
            Except.error (logErrorMessage
              "Cannot use initialiser syntax in a for-of enumeration")
          else Except.ok ForLoopKind.forOf

/- ===================== C1: use strict directives ===================== -/

/-- SourceElementsMode (Parser.h interface): whether parseSourceElements
watches the directive prologue for "use strict". -/
inductive SourceElementsMode where
  | checkForStrictMode
  | dontCheckForStrictMode
  deriving DecidableEq, Repr

/-- One statement-list item of a source-element list, abstracted by its
effect on the directive plumbing of parseStatementListItem /
parseStatement:

* stringLiteralStmt: an expression statement whose sole content is a string
  literal; the STRING case of parseStatement (lines 1669-1674) stores its
  interned value in the directive out parameter and its original source
  length (token end offset minus start offset, quotes and escapes included)
  in directiveLiteralLength.
* letLikeStmt: an item handled directly by the LET / CONSTTOKEN /
  CLASSTOKEN cases of parseStatementListItem (lines 544-573), which never
  touch the directive out parameter, so the previous directive stays in
  place.  reparseFailure is the error such an item produces when re-parsed
  after the strict-mode rewind (for example a sloppy-mode "let(0)"
  expression that becomes an invalid declaration under strict mode, or a
  let declaration that collides with its own first-pass binding).
* otherStmt: any statement routed through parseStatement, which resets the
  directive out parameter to null at entry (line 1599); strictFailure is
  the error it produces when parsed under strict mode (for example a with
  statement), none if it always parses.
* failingStmt: a statement whose parse fails in either mode with the given
  message. -/
inductive StmtItem where
  | stringLiteralStmt (value : String) (literalLength : Nat)
  | letLikeStmt (reparseFailure : Option String)
  | otherStmt (strictFailure : Option String)
  | failingStmt (message : String)
  deriving DecidableEq, Repr

/-- The directive out parameter after parsing one statement-list item,
given its previous value. -/
def stmtDirective (item : StmtItem) (directive : Option (String × Nat)) :
    Option (String × Nat) :=
  match item with
  | StmtItem.stringLiteralStmt v l => some (v, l)
  | StmtItem.letLikeStmt _ => directive
  | StmtItem.otherStmt _ => none
  | StmtItem.failingStmt _ => none

/-- Whether parsing one statement-list item fails, as a function of the
pass: strictPass is false on the initial scan and true on the re-parse
performed after the strict-mode rewind. -/
def stmtOutcome (strictPass : Bool) (item : StmtItem) : Option String :=
  match item with
  | StmtItem.stringLiteralStmt _ _ => none
  | StmtItem.letLikeStmt reparseFailure => if strictPass then reparseFailure else none
  | StmtItem.otherStmt strictFailure => if strictPass then strictFailure else none
  | StmtItem.failingStmt m => some m

/-- The scope and parser state consulted by the retroactive strict-mode
validation: lastFunctionName, the declared variables of the enclosing
scope, and the accumulated isValidStrictMode flag of the scope (spec
sections 4.2 and 4.3; the Scope class is in the missing Parser.h). -/
structure StrictContext where
  lastFunctionName : Option String
  declaredVariables : List String
  isValidStrictMode : Bool
  deriving DecidableEq, Repr

/-- The validation performed right after setStrictMode in
parseSourceElements (Parser.cpp lines 422-434): when the scope is not
valid-for-strict, fail naming the offending prior function name or declared
variable, in source order, with a generic fallback. -/
def strictModeValidationError (ctx : StrictContext) : Option String :=
  if ctx.isValidStrictMode then none
  else if ctx.lastFunctionName = some "arguments" then
    some (logErrorMessage "Cannot name a function \x27arguments\x27 in strict mode")
  else if ctx.lastFunctionName = some "eval" then
    some (logErrorMessage "Cannot name a function \x27eval\x27 in strict mode")
  else if ctx.declaredVariables.contains "arguments" then
    some (logErrorMessage "Cannot declare a variable named \x27arguments\x27 in strict mode")
  else if ctx.declaredVariables.contains "eval" then
    some (logErrorMessage "Cannot declare a variable named \x27eval\x27 in strict mode")
  else some (logErrorMessage "Invalid parameters or function name in strict mode")

/-- "use strict".length (Parser.cpp line 407): the original source length of
the exact literal, quotes included. -/
def lengthOfUseStrictLiteral : Nat := 12

/-- The loop of parseSourceElements after hasSetStrict has become true (or
whenever the current pass is the strict re-parse): no further trigger is
possible, statements are parsed (now under strict mode) and appended; the
seenNonDirective and directive bookkeeping still runs but can no longer
fire.  acc holds the already appended statements in reverse. -/
def parseSourceElementsResume (mode : SourceElementsMode) :
    List StmtItem → Bool → Option (String × Nat) → List StmtItem →
    Except String (List StmtItem × Bool)
  | [], _, _, acc => Except.ok (acc.reverse, true)
  | item :: rest, seenNonDirective, directive, acc =>
      match stmtOutcome true item with
      | some m => Except.error m
      | none =>
          let directive2 := stmtDirective item directive
          let seen2 :=
            if mode = SourceElementsMode.checkForStrictMode && !seenNonDirective
                && directive2 = none then true
            else seenNonDirective
          parseSourceElementsResume mode rest seen2 directive2 (item :: acc)

/-- The loop of parseSourceElements (Parser.cpp lines 404-447) before any
"use strict" has been seen (hasSetStrict = false), on a non-strict first
pass.  savePoint is the statement list as of the save point taken before
the loop (line 412).  When, with mode = CheckForStrictMode and no
non-directive statement seen, the directive out parameter holds a literal
of original length 12 whose interned value is "use strict", the parser sets
strict mode, validates the accumulated constraints, restores the save
point and continues the loop - modelled by switching to
parseSourceElementsResume on the full saved list, with the local
seenNonDirective, directive and already-appended statements kept (they are
locals of parseSourceElements and are not part of the save point). -/
def parseSourceElementsScan (ctx : StrictContext) (mode : SourceElementsMode)
    (savePoint : List StmtItem) :
    List StmtItem → Bool → Option (String × Nat) → List StmtItem →
    Except String (List StmtItem × Bool)
  | [], _, _, acc => Except.ok (acc.reverse, false)
  | item :: rest, seenNonDirective, directive, acc =>
      match stmtOutcome false item with
      | some m => Except.error m
      | none =>
          let directive2 := stmtDirective item directive
          if mode = SourceElementsMode.checkForStrictMode && !seenNonDirective then
            match directive2 with
            | some (v, l) =>
                if l = lengthOfUseStrictLiteral && v = "use strict" then
                  match strictModeValidationError ctx with
                  | some m => Except.error m
                  | none =>
                      parseSourceElementsResume mode savePoint seenNonDirective
                        directive2 acc
                else
                  parseSourceElementsScan ctx mode savePoint rest seenNonDirective
                    directive2 (item :: acc)
            | none =>
                parseSourceElementsScan ctx mode savePoint rest true
                  directive2 (item :: acc)
          else
            parseSourceElementsScan ctx mode savePoint rest seenNonDirective
              directive2 (item :: acc)

/-- parseSourceElements (Parser.cpp lines 404-447) on a scope that is not
yet strict: returns the appended source elements and the final strict-mode
flag of the enclosing scope. -/
def parseSourceElements (ctx : StrictContext) (mode : SourceElementsMode)
    (items : List StmtItem) : Except String (List StmtItem × Bool) :=
  parseSourceElementsScan ctx mode items items false none []

/-- The trigger condition exactly as the claim states it: some string
literal inside the directive prologue - the maximal leading run of
string-literal statements - has original length 12 and value
"use strict". -/
def directivePrologueTriggersStrict : List StmtItem → Bool
  | StmtItem.stringLiteralStmt v l :: rest =>
      (l = lengthOfUseStrictLiteral && v = "use strict")
        || directivePrologueTriggersStrict rest
  | _ => false

/-- Specification-side description of where the parser actually flips to
strict mode: the index of the statement whose (possibly stale) directive
value matches "use strict" with length 12 while no non-directive statement
has been registered, scanning with the same seenNonDirective / directive
bookkeeping as the parser; none if the scan ends or hits a statement that
fails to parse first. -/
def staleTriggerIndexGo : List StmtItem → Bool → Option (String × Nat) → Option Nat
  | [], _, _ => none
  | item :: rest, seenNonDirective, directive =>
      match stmtOutcome false item with
      | some _ => none
      | none =>
          let directive2 := stmtDirective item directive
          if !seenNonDirective then
            match directive2 with
            | some (v, l) =>
                if l = lengthOfUseStrictLiteral && v = "use strict" then some 0
                else (staleTriggerIndexGo rest seenNonDirective directive2).map (· + 1)
            | none => (staleTriggerIndexGo rest true directive2).map (· + 1)
          else (staleTriggerIndexGo rest seenNonDirective directive2).map (· + 1)

/-- The statement index at which the parser flips to strict mode, if any. -/
def staleTriggerIndex (items : List StmtItem) : Option Nat :=
  staleTriggerIndexGo items false none

/-- The first parse failure of a plain non-strict pass over the items. -/
def firstNonStrictFailure : List StmtItem → Option String
  | [] => none
  | item :: rest =>
      match stmtOutcome false item with
      | some m => some m
      | none => firstNonStrictFailure rest

/-- The first parse failure of a strict re-parse pass over the items. -/
def firstStrictFailure : List StmtItem → Option String
  | [] => none
  | item :: rest =>
      match stmtOutcome true item with
      | some m => some m
      | none => firstStrictFailure rest

/- ============ C2 / C3 / C4: parseFunctionInfo, scopes, cache ============ -/

/-- SourceParseMode (ParserModes.h interface). -/
inductive SourceParseMode where
  | programMode
  | moduleAnalyzeMode
  | moduleEvaluateMode
  | normalFunctionMode
  | methodMode
  | getterMode
  | setterMode
  | generatorWrapperFunctionMode
  | generatorBodyMode
  | arrowFunctionMode
  deriving DecidableEq, Repr

/-- ConstructorKind (ParserModes.h interface). -/
inductive ConstructorKind where
  | noneKind
  | baseKind
  | derivedKind
  deriving DecidableEq, Repr

/-- SuperBinding (ParserModes.h interface). -/
inductive SuperBinding where
  | needed
  | notNeeded
  deriving DecidableEq, Repr

/-- FunctionBodyType (Parser.h interface): the three body shapes
parseFunctionInfo distinguishes. -/
inductive FunctionBodyType where
  | standardFunctionBodyBlock
  | arrowFunctionBodyBlock
  | arrowFunctionBodyExpression
  deriving DecidableEq, Repr

/-- FunctionRequirements (Parser.h interface). -/
inductive FunctionRequirements where
  | functionNoRequirements
  | functionNeedsName
  deriving DecidableEq, Repr

/-- FunctionDefinitionType (Parser.h interface). -/
inductive FunctionDefinitionType where
  | declaration
  | expressionType
  deriving DecidableEq, Repr

/-- The capability flags of the tree-builder contract (spec section 4.10).
Modelled from the spec: the two concrete builders (ASTBuilder.h and
SyntaxChecker.h are not in src/) expose the compile-time booleans
CreatesAST and CanUseFunctionCache that the parser queries. -/
structure TreeBuilderCaps where
  createsAST : Bool
  canUseFunctionCache : Bool
  deriving DecidableEq, Repr

/-- The full AST-building tree builder: constructs nodes and enables the
function cache (spec section 4.10). -/
def fullBuilderCaps : TreeBuilderCaps :=
  { createsAST := true, canUseFunctionCache := true }

/-- A syntax-only tree builder used outside speculative regions: validates
only and, per spec section 4.10, does not populate the skip cache inside
speculative regions; both capability choices of the flag are covered by the
theorems, which quantify over the capabilities. -/
def checkerBuilderCaps : TreeBuilderCaps :=
  { createsAST := false, canUseFunctionCache := false }

/-- Modelled from the spec: the per-scope record of the scope stack (spec
section 3, Scope entity; the Scope class is in the missing Parser.h),
restricted to the fields parseFunctionInfo reads and writes. -/
structure Scope where
  sourceParseMode : SourceParseMode
  strictMode : Bool
  constructorKind : ConstructorKind
  expectedSuperBinding : SuperBinding
  deriving DecidableEq, Repr

/-- Modelled from the spec: a scope is a generator scope when its parse
mode is the generator body mode (spec section 4.9, "Generators": the body
scope is the generator scope). -/
def Scope.isGenerator (s : Scope) : Bool :=
  s.sourceParseMode = SourceParseMode.generatorBodyMode

/-- Modelled from the spec: pushScope creates a scope inheriting the
strict-mode flag from the scope below it (strict mode is monotone within a
scope once set, spec section 3, Invariants). -/
def newScope (parent : Option Scope) : Scope :=
  { sourceParseMode := SourceParseMode.programMode,
    strictMode := match parent with | some p => p.strictMode | none => false,
    constructorKind := ConstructorKind.noneKind,
    expectedSuperBinding := SuperBinding.notNeeded }

/-- One entry of the source-provider cache (SourceProviderCacheItem),
restricted to the fields the embedded parseFunctionInfo reads: the function
end offset, the parameter count, the strict flag and whether the body is an
arrow expression.  (The token and line bookkeeping and the captured
variable set are not modelled.) -/
structure SourceProviderCacheItem where
  endFunctionOffset : Nat
  parameterCount : Nat
  strictMode : Bool
  isBodyArrowExpression : Bool
  deriving DecidableEq, Repr

/-- The source-provider cache: entries keyed by function start offset. -/
abbrev FunctionCache : Type := List (Nat × SourceProviderCacheItem)

/-- findCachedFunctionInfo: look an entry up by function start offset. -/
def cacheFind : FunctionCache → Nat → Option SourceProviderCacheItem
  | [], _ => none
  | (k, e) :: rest, offset => if k = offset then some e else cacheFind rest offset

/-- The observable outcome of parsing a function body, abstracting
parseFunctionBody: whether the body contained a "use strict" directive that
set the body scope strict, and the direct-super / super-binding uses the
body scope recorded. -/
structure BodyOutcome where
  bodySetStrictMode : Bool
  hasDirectSuper : Bool
  needsSuperBinding : Bool
  deriving DecidableEq, Repr

/-- The inputs of one parseFunctionInfo run (Parser.cpp lines 1880-2126).
Subsidiary parses are abstracted as oracle fields carrying their observable
outcome; the remaining fields are the arguments of the function and the
ambient parser state it reads. -/
structure FnParseInput where
  mode : SourceParseMode
  requirements : FunctionRequirements
  nameIsInContainingScope : Bool
  constructorKind : ConstructorKind
  expectedSuperBinding : SuperBinding
  functionDefinitionType : FunctionDefinitionType
  defaultConstructorKind : ConstructorKind
  nameToken : Option String
  openParenAtNamePosition : Bool
  parametersResult : Except String Nat
  startOffset : Nat
  arrowMatchesArrowToken : Bool
  arrowPrevTerminator : Bool
  arrowBodyStartsWithBrace : Bool
  openBraceAfterParameters : Bool
  bodyResult : Except String BodyOutcome
  isReparsingFunction : Bool
  closestParentConstructorKind : ConstructorKind
  closestParentSuperBinding : SuperBinding
  endOffsetAtClose : Nat
  arrowExprEndOffset : Nat
  hasFunctionCache : Bool
  isEndOfArrowFunctionOk : Bool
  closeBraceAtEnd : Bool
  deriving DecidableEq, Repr

/-- The function metadata parseFunctionInfo fills in (ParserFunctionInfo),
restricted to the fields the claims mention, plus which body shape was
chosen and whether the cache supplied the result. -/
structure FnInfoResult where
  name : Option String
  parameterCount : Nat
  startOffset : Nat
  endOffset : Nat
  bodyType : FunctionBodyType
  strictBody : Bool
  fromCache : Bool
  deriving DecidableEq, Repr

/-- The full outcome of one parseFunctionInfo run: the result or first
error, the scope stack after the run, and the function cache after the
run. -/
structure FnOut where
  result : Except String FnInfoResult
  scopeStack : List Scope
  functionCache : FunctionCache
  deriving DecidableEq

/-- stringForFunctionMode (Parser.cpp lines 1757-1782). -/
def stringForFunctionMode (mode : SourceParseMode) : String :=
  match mode with
  | SourceParseMode.getterMode => "getter"
  | SourceParseMode.setterMode => "setter"
  | SourceParseMode.normalFunctionMode => "function"
  | SourceParseMode.methodMode => "method"
  | SourceParseMode.generatorBodyMode => "generator"
  | SourceParseMode.generatorWrapperFunctionMode => "generator function"
  | SourceParseMode.arrowFunctionMode => "arrow function"
  | _ => ""

/-- The minimum function length for a cache entry (Parser.cpp line 2092):
16 for a standard function body block, 8 otherwise (both arrow body
shapes). -/
def minimumFunctionLengthToCache (functionBodyType : FunctionBodyType) : Int :=
  if functionBodyType = FunctionBodyType.standardFunctionBodyBlock then 16 else 8

/-- The threshold as the claim words it: 16 characters for block bodies -
which include arrow functions whose body is a block - and 8 characters for
arrow-expression bodies. -/
def claimMinimumFunctionLengthToCache (functionBodyType : FunctionBodyType) : Int :=
  if functionBodyType = FunctionBodyType.arrowFunctionBodyExpression then 8 else 16

/-- The pre-body phase of parseFunctionInfo (Parser.cpp lines 1897-1968):
for an arrow function, parameters, the arrow token with its no-line-break
rule, and the body shape decided by the brace after the arrow; otherwise
the optional name with its strict-mode callee check, parameters, the
opening brace, and the default-constructor-kind override.  Returns the body
type, the function name, the parameter count and the constructor kind and
super binding to install on the function scope. -/
def parseFunctionInfoPreamble (strictAtFunctionScope : Bool) (inp : FnParseInput) :
    Except String
      (FunctionBodyType × Option String × Nat × ConstructorKind × SuperBinding) :=
  if inp.mode = SourceParseMode.arrowFunctionMode then
    match inp.parametersResult with
    | Except.error e => Except.error e
    | Except.ok parameterCount =>
        if !inp.arrowMatchesArrowToken then
          Except.error (logErrorMessage
            "Expected a \x27=>\x27 after arrow function parameter declaration")
        else if inp.arrowPrevTerminator then
          Except.error unexpectedTokenMessage
        else
          let functionBodyType :=
            if inp.arrowBodyStartsWithBrace then FunctionBodyType.arrowFunctionBodyBlock
            else FunctionBodyType.arrowFunctionBodyExpression
          Except.ok (functionBodyType, none, parameterCount,
            inp.constructorKind, inp.expectedSuperBinding)
  else
    let nameStep : Except String (Option String) :=
      match inp.nameToken with
      | some name =>
          if !inp.nameIsInContainingScope && strictAtFunctionScope
              && isEvalOrArguments name then
            Except.error (logErrorMessage ("\x27" ++ name ++ "\x27 is not a valid "
              ++ stringForFunctionMode inp.mode ++ " name in strict mode"))
          else Except.ok (some name)
      | none =>
          if inp.requirements = FunctionRequirements.functionNeedsName then
            if inp.openParenAtNamePosition
                && inp.mode = SourceParseMode.normalFunctionMode then
              Except.error (logErrorMessage "Function statements must have a name")
            else Except.error unexpectedTokenMessage
          else Except.ok none
    match nameStep with
    | Except.error e => Except.error e
    | Except.ok name =>
        match inp.parametersResult with
        | Except.error e => Except.error e
        | Except.ok parameterCount =>
            if !inp.openBraceAfterParameters then
              Except.error (logErrorMessage ("Expected an opening \x7b at the start of a "
                ++ stringForFunctionMode inp.mode ++ " body"))
            else
              let ck :=
                if inp.defaultConstructorKind ≠ ConstructorKind.noneKind then
                  inp.defaultConstructorKind
                else inp.constructorKind
              let esb :=
                if inp.defaultConstructorKind ≠ ConstructorKind.noneKind then
                  (if inp.defaultConstructorKind = ConstructorKind.derivedKind then
                    SuperBinding.needed
                  else SuperBinding.notNeeded)
                else inp.expectedSuperBinding
              Except.ok (FunctionBodyType.standardFunctionBodyBlock, name,
                parameterCount, ck, esb)

/-- The after-body phase of parseFunctionInfo on a cache miss (Parser.cpp
lines 2029-2125), given the function scope strict flag after the body, the
body outcome of the scope that parsed the body, the body type and the
chosen constructor kind and super binding.  Performs the strict-mode
function-name validation, the super validations, computes the function end
offset, decides whether to create a cache entry, and checks the closing
token; the entry is added only after those checks succeed. -/
def parseFunctionInfoAfterBody (caps : TreeBuilderCaps) (cache : FunctionCache)
    (inp : FnParseInput) (functionScopeStrict : Bool) (body : BodyOutcome)
    (functionBodyType : FunctionBodyType) (name : Option String)
    (parameterCount : Nat) (ck : ConstructorKind) (esb : SuperBinding) :
    Except String FnInfoResult × FunctionCache :=
  let strictNameError : Option String :=
    match name with
    | some n =>
        if functionScopeStrict && isEvalOrArguments n then
          some (logErrorMessage ("\x27" ++ n
            ++ "\x27 is not a valid function name in strict mode"))
        else none
    | none => none
  match strictNameError with
  | some m => (Except.error m, cache)
  | none =>
      let fnHasDirectSuper :=
        if inp.mode = SourceParseMode.generatorWrapperFunctionMode then false
        else body.hasDirectSuper
      let fnNeedsSuperBinding :=
        if inp.mode = SourceParseMode.generatorWrapperFunctionMode then false
        else body.needsSuperBinding
      let superError : Option String :=
        if inp.isReparsingFunction then none
        else
          let directSuperError :=
            if fnHasDirectSuper then
              let functionConstructorKind :=
                if functionBodyType = FunctionBodyType.standardFunctionBodyBlock then ck
                else inp.closestParentConstructorKind
              if functionConstructorKind = ConstructorKind.noneKind then
                some (logErrorMessage "Cannot call super() outside of a class constructor")
              else if functionConstructorKind ≠ ConstructorKind.derivedKind then
                some (logErrorMessage "Cannot call super() in a base class constructor")
              else none
            else none
          match directSuperError with
          | some m => some m
          | none =>
              if fnNeedsSuperBinding then
                let functionSuperBinding :=
                  if functionBodyType = FunctionBodyType.standardFunctionBodyBlock then esb
                  else inp.closestParentSuperBinding
                if functionSuperBinding = SuperBinding.notNeeded then
                  some (logErrorMessage
                    "super can only be used in a method of a derived class")
                else none
              else none
      match superError with
      | some m => (Except.error m, cache)
      | none =>
          let endOffset :=
            if functionBodyType = FunctionBodyType.arrowFunctionBodyExpression then
              inp.arrowExprEndOffset
            else inp.endOffsetAtClose
          let functionLength : Int := (endOffset : Int) - (inp.startOffset : Int)
          let newInfo : Option SourceProviderCacheItem :=
            if caps.canUseFunctionCache && inp.hasFunctionCache
                && functionLength > minimumFunctionLengthToCache functionBodyType then
              some { endFunctionOffset := endOffset,
                     parameterCount := parameterCount,
                     strictMode := functionScopeStrict,
                     isBodyArrowExpression :=
                       functionBodyType = FunctionBodyType.arrowFunctionBodyExpression }
            else none
          let closeError : Option String :=
            if functionBodyType = FunctionBodyType.arrowFunctionBodyExpression then
              if !inp.isEndOfArrowFunctionOk then
                some (logErrorMessage
                  "Expected the closing \x27;\x27 \x27,\x27 \x27]\x27 \x27)\x27 \x27\x7d\x27, line terminator or EOF after arrow function")
              else none
            else
              if !inp.closeBraceAtEnd then
                some (logErrorMessage ("Expected a closing \x7d after a "
                  ++ stringForFunctionMode inp.mode ++ " body"))
              else none
          match closeError with
          | some m => (Except.error m, cache)
          | none =>
              let cache2 :=
                match newInfo with
                | some ni => (inp.startOffset, ni) :: cache
                | none => cache
              (Except.ok
                { name := name, parameterCount := parameterCount,
                  startOffset := inp.startOffset, endOffset := endOffset,
                  bodyType := functionBodyType, strictBody := functionScopeStrict,
                  fromCache := false },
               cache2)

/-- parseFunctionInfo (Parser.cpp lines 1880-2126).  The function scope is
pushed on entry (line 1886, an AutoPopScopeRef, so it is popped again on
every exit path, the error paths popping through the destructor); after the
pre-body phase the cache is consulted when the builder has the
CanUseFunctionCache capability (line 1976): a hit restores the scope from
the cache, pops, skips the body and never records a new entry; on a miss
the body is parsed (for a generator wrapper inside an extra generator body
scope that is pushed and popped around it), the after-body validations run
and a new cache entry is recorded on success if the function is long
enough. -/
def parseFunctionInfo (caps : TreeBuilderCaps) (cache : FunctionCache)
    (stack : List Scope) (inp : FnParseInput) : FnOut :=
  let functionScope0 := { newScope stack.head? with sourceParseMode := inp.mode }
  match parseFunctionInfoPreamble functionScope0.strictMode inp with
  | Except.error e =>
      { result := Except.error e,
        scopeStack := (functionScope0 :: stack).tail,
        functionCache := cache }
  | Except.ok (functionBodyType, name, parameterCount, ck, esb) =>
      let functionScope1 :=
        { functionScope0 with constructorKind := ck, expectedSuperBinding := esb }
      match (if caps.canUseFunctionCache then cacheFind cache inp.startOffset
             else none) with
      | some cachedInfo =>
          let cachedBodyType :=
            if inp.mode = SourceParseMode.arrowFunctionMode then
              (if cachedInfo.isBodyArrowExpression then
                FunctionBodyType.arrowFunctionBodyExpression
              else FunctionBodyType.arrowFunctionBodyBlock)
            else FunctionBodyType.standardFunctionBodyBlock
          { result := Except.ok
              { name := name, parameterCount := cachedInfo.parameterCount,
                startOffset := inp.startOffset,
                endOffset := cachedInfo.endFunctionOffset,
                bodyType := cachedBodyType,
                strictBody := cachedInfo.strictMode,
                fromCache := true },
            scopeStack := (functionScope1 :: stack).tail,
            functionCache := cache }
      | none =>
          if inp.mode = SourceParseMode.generatorWrapperFunctionMode then
            let generatorBodyScope :=
              { newScope (some functionScope1) with
                  sourceParseMode := SourceParseMode.generatorBodyMode }
            match inp.bodyResult with
            | Except.error e =>
                { result := Except.error e,
                  scopeStack :=
                    ((generatorBodyScope :: functionScope1 :: stack).tail).tail,
                  functionCache := cache }
            | Except.ok body =>
                let generatorStrict :=
                  generatorBodyScope.strictMode || body.bodySetStrictMode
                let functionScope2 :=
                  { functionScope1 with
                      strictMode := functionScope1.strictMode || generatorStrict }
                if body.hasDirectSuper then
                  { result := Except.error (logErrorMessage
                      "Cannot call super() outside of a class constructor"),
                    scopeStack :=
                      ((generatorBodyScope :: functionScope2 :: stack).tail).tail,
                    functionCache := cache }
                else if body.needsSuperBinding && esb = SuperBinding.notNeeded then
                  { result := Except.error (logErrorMessage
                      "super can only be used in a method of a derived class"),
                    scopeStack :=
                      ((generatorBodyScope :: functionScope2 :: stack).tail).tail,
                    functionCache := cache }
                else
                  let afterBody := parseFunctionInfoAfterBody caps cache inp
                    functionScope2.strictMode body functionBodyType name
                    parameterCount ck esb
                  { result := afterBody.1,
                    scopeStack := (functionScope2 :: stack).tail,
                    functionCache := afterBody.2 }
          else
            match inp.bodyResult with
            | Except.error e =>
                { result := Except.error e,
                  scopeStack := (functionScope1 :: stack).tail,
                  functionCache := cache }
            | Except.ok body =>
                let functionScope2 :=
                  { functionScope1 with
                      strictMode := functionScope1.strictMode || body.bodySetStrictMode }
                let afterBody := parseFunctionInfoAfterBody caps cache inp
                  functionScope2.strictMode body functionBodyType name
                  parameterCount ck esb
                { result := afterBody.1,
                  scopeStack := (functionScope2 :: stack).tail,
                  functionCache := afterBody.2 }

/-- The pipeline around a whole parse, as far as the scope stack is
concerned: the Parser constructor (Parser.cpp lines 194-227) pushes the
initial scope (line 220), installs the parse mode and optionally strict
mode on it, and parseInner / the destructor never pops it - no popScope for
this scope exists in Parser.cpp.  The source-element loop itself pushes and
pops statement-level scopes in balanced pairs, so the stack after the parse
is exactly the constructor scope. -/
def parserConstructAndParse (parseMode : SourceParseMode) (strictParam : Bool)
    (ctx : StrictContext) (mode : SourceElementsMode) (items : List StmtItem) :
    Except String (List StmtItem × Bool) × List Scope :=
  let scope := { newScope none with
    sourceParseMode := parseMode,
    strictMode := strictParam }
  (parseSourceElements ctx mode items, scope :: [])

/-- The error/no-error verdict (with message) of a parseFunctionInfo run:
the claim compares the builders on this observation. -/
def fnVerdict (out : FnOut) : Except String Unit :=
  match out.result with
  | Except.error e => Except.error e
  | Except.ok _ => Except.ok ()

/-- Soundness of the function cache with respect to the current input: any
entry stored at this function start offset describes exactly what a fresh
parse (no cache consultation) of that function yields.  This is the cache
consistency invariant of spec section 8 that the recorded entries satisfy
by construction. -/
def CacheSound (cache : FunctionCache) (stack : List Scope) (inp : FnParseInput) : Prop :=
  ∀ e, cacheFind cache inp.startOffset = some e →
    ∃ fi, (parseFunctionInfo checkerBuilderCaps cache stack inp).result = Except.ok fi ∧
      e.endFunctionOffset = fi.endOffset ∧
      e.parameterCount = fi.parameterCount ∧
      e.strictMode = fi.strictBody ∧
      (inp.mode = SourceParseMode.arrowFunctionMode →
        (e.isBodyArrowExpression = true ↔
          fi.bodyType = FunctionBodyType.arrowFunctionBodyExpression)) ∧
      (inp.mode ≠ SourceParseMode.arrowFunctionMode →
        fi.bodyType = FunctionBodyType.standardFunctionBodyBlock)

/-- Whether an Except result is a success. -/
def isOkResult {α : Type} (r : Except String α) : Bool :=
  match r with
  | Except.ok _ => true
  | Except.error _ => false

/-- A concrete parseFunctionInfo run: an arrow function whose body is a
block (functionBodyType = ArrowFunctionBodyBlock), spanning offsets 0 to
10, parsed successfully with the full builder and an empty cache. -/
def arrowBlockFunctionInput : FnParseInput :=
  { mode := SourceParseMode.arrowFunctionMode,
    requirements := FunctionRequirements.functionNoRequirements,
    nameIsInContainingScope := true,
    constructorKind := ConstructorKind.noneKind,
    expectedSuperBinding := SuperBinding.notNeeded,
    functionDefinitionType := FunctionDefinitionType.expressionType,
    defaultConstructorKind := ConstructorKind.noneKind,
    nameToken := none,
    openParenAtNamePosition := false,
    parametersResult := Except.ok 1,
    startOffset := 0,
    arrowMatchesArrowToken := true,
    arrowPrevTerminator := false,
    arrowBodyStartsWithBrace := true,
    openBraceAfterParameters := true,
    bodyResult := Except.ok
      { bodySetStrictMode := false, hasDirectSuper := false,
        needsSuperBinding := false },
    isReparsingFunction := false,
    closestParentConstructorKind := ConstructorKind.noneKind,
    closestParentSuperBinding := SuperBinding.notNeeded,
    endOffsetAtClose := 10,
    arrowExprEndOffset := 10,
    hasFunctionCache := true,
    isEndOfArrowFunctionOk := true,
    closeBraceAtEnd := true }

/- ======================== Theorems ======================== -/

/-- Claim C7: a let token at statement-list-item position followed by an
opening bracket begins a lexical declaration; followed by a dot or an
opening parenthesis it is parsed as an expression statement; and this
expression fallback exists in non-strict mode only - in strict mode let at
that position is always parsed as a declaration.  The dispatcher also
restores the save point, so the position is unchanged. -/
theorem let_dispatch_c7 (t2 : JSToken) (rest : List JSToken) :
    (t2.ttype = JSTokenType.OPENBRACKET →
      parseStatementListItemDispatch false ({ ttype := JSTokenType.LET } :: t2 :: rest) 0 =
        (StatementListItemChoice.variableDeclaration DeclarationType.letDeclaration, 0)) ∧
    (t2.ttype = JSTokenType.DOT →
      parseStatementListItemDispatch false ({ ttype := JSTokenType.LET } :: t2 :: rest) 0 =
        (StatementListItemChoice.expressionOrLabelStatement, 0)) ∧
    (t2.ttype = JSTokenType.OPENPAREN →
      parseStatementListItemDispatch false ({ ttype := JSTokenType.LET } :: t2 :: rest) 0 =
        (StatementListItemChoice.expressionOrLabelStatement, 0)) ∧
    (parseStatementListItemDispatch true ({ ttype := JSTokenType.LET } :: t2 :: rest) 0 =
      (StatementListItemChoice.variableDeclaration DeclarationType.letDeclaration, 0)) := by
  refine ⟨fun h => ?_, fun h => ?_, fun h => ?_, ?_⟩ <;>
    simp [parseStatementListItemDispatch, tokenAt, *]

/-- Witness for let_dispatch_c7 at concrete following tokens. -/
theorem let_dispatch_c7_witness :
    parseStatementListItemDispatch false
        ({ ttype := JSTokenType.LET } :: { ttype := JSTokenType.OPENBRACKET } :: []) 0 =
      (StatementListItemChoice.variableDeclaration DeclarationType.letDeclaration, 0) ∧
    parseStatementListItemDispatch false
        ({ ttype := JSTokenType.LET } :: { ttype := JSTokenType.DOT } :: []) 0 =
      (StatementListItemChoice.expressionOrLabelStatement, 0) ∧
    parseStatementListItemDispatch false
        ({ ttype := JSTokenType.LET } :: { ttype := JSTokenType.OPENPAREN } :: []) 0 =
      (StatementListItemChoice.expressionOrLabelStatement, 0) ∧
    parseStatementListItemDispatch true
        ({ ttype := JSTokenType.LET } :: { ttype := JSTokenType.DOT } :: []) 0 =
      (StatementListItemChoice.variableDeclaration DeclarationType.letDeclaration, 0) :=
  ⟨(let_dispatch_c7 { ttype := JSTokenType.OPENBRACKET } []).1 rfl,
   ((let_dispatch_c7 { ttype := JSTokenType.DOT } []).2).1 rfl,
   (((let_dispatch_c7 { ttype := JSTokenType.OPENPAREN } []).2).2).1 rfl,
   (((let_dispatch_c7 { ttype := JSTokenType.DOT } []).2).2).2⟩

/-- Claim C9: at a position where the statement ends without a label (an
explicit or automatic semicolon follows the keyword), a break fails with a
semantic error unless it occurs inside a loop or a switch, and a continue
fails with a semantic error unless it occurs inside a loop; this check is
performed without any label lookup - the outcome is independent of the
label map of the scope. -/
theorem break_continue_labelless_c9 (scope : LabelScopeInfo)
    (tokens : List JSToken) (pos p : Nat)
    (h : autoSemiColon tokens (pos + 1) = some p) :
    (isOkResult (parseBreakStatement scope tokens pos) = true ↔
      (0 < scope.loopDepth ∨ 0 < scope.switchDepth)) ∧
    (isOkResult (parseContinueStatement scope tokens pos) = true ↔
      0 < scope.loopDepth) ∧
    (∀ labels2,
      parseBreakStatement { scope with labels := labels2 } tokens pos =
        parseBreakStatement scope tokens pos ∧
      parseContinueStatement { scope with labels := labels2 } tokens pos =
        parseContinueStatement scope tokens pos) := by
  refine ⟨?_, ?_, ?_⟩
  · simp only [parseBreakStatement, h, breakIsValid]
    by_cases hl : 0 < scope.loopDepth <;> by_cases hs : 0 < scope.switchDepth <;>
      simp [hl, hs, isOkResult]
  · simp only [parseContinueStatement, h, continueIsValid]
    by_cases hl : 0 < scope.loopDepth <;> simp [hl, isOkResult]
  · intro labels2
    constructor <;> simp [parseBreakStatement, parseContinueStatement, h,
      breakIsValid, continueIsValid]

/-- Witness for break_continue_labelless_c9: break directly before a
closing brace inside a switch, continue in the same position is invalid
because no loop is active. -/
theorem break_continue_labelless_c9_witness :
    isOkResult (parseBreakStatement
      { loopDepth := 0, switchDepth := 1, labels := [("l", true)] }
      [{ ttype := JSTokenType.BREAK }, { ttype := JSTokenType.CLOSEBRACE }] 0) = true :=
  ((break_continue_labelless_c9
      { loopDepth := 0, switchDepth := 1, labels := [("l", true)] }
      [{ ttype := JSTokenType.BREAK }, { ttype := JSTokenType.CLOSEBRACE }] 0 1
      (by decide)).1).mpr (Or.inr (by decide))

/-- Claim C10: inside a generator scope (outside parameter parsing), a
yield followed by a line terminator, or whose following tokens fail to
parse as an assignment expression, produces an argument-less yield
expression; in the failure case the save point taken at the yield token is
restored and the speculative error is discarded rather than propagated, so
parsing resumes at the token right after yield. -/
theorem yield_argumentless_c10 (tokens : List JSToken) (pos : Nat)
    (argumentParse : Except String Nat) :
    ((tokenAt tokens (pos + 1)).afterLineTerminator = true →
      parseYieldExpression true FunctionParsePhase.body tokens pos argumentParse =
        Except.ok (YieldProduced.noArgument, pos + 1)) ∧
    (∀ m, (tokenAt tokens (pos + 1)).afterLineTerminator = false →
      argumentParse = Except.error m →
      parseYieldExpression true FunctionParsePhase.body tokens pos argumentParse =
        Except.ok (YieldProduced.noArgument, pos + 1)) := by
  constructor
  · intro h
    simp [parseYieldExpression, h]
  · intro m h harg
    simp [parseYieldExpression, h, harg]

/-- Witness for yield_argumentless_c10: a failing argument parse right
after yield (no line terminator) still yields an argument-less yield
expression at the next position. -/
theorem yield_argumentless_c10_witness :
    parseYieldExpression true FunctionParsePhase.body
        [{ ttype := JSTokenType.YIELD }, { ttype := JSTokenType.SEMICOLON }] 0
        (Except.error "Cannot parse expression.") =
      Except.ok (YieldProduced.noArgument, 1) :=
  (yield_argumentless_c10
      [{ ttype := JSTokenType.YIELD }, { ttype := JSTokenType.SEMICOLON }] 0
      (Except.error "Cannot parse expression.")).2
    "Cannot parse expression." (by decide) rfl

/-- Helper for C8: running the depth-budgeted primary-expression parser on
n nested parentheses (followed by any rest) succeeds exactly when the
budget exceeds the nesting depth, and otherwise stops with the
stack-overflow error produced by failWithStackOverflow. -/
theorem parsePrimaryExpressionDepth_nested (n : Nat) :
    ∀ (budget : Nat) (rest : List JSToken),
      parsePrimaryExpressionDepth budget
        (List.replicate n ({ ttype := JSTokenType.OPENPAREN } : JSToken) ++
          ([({ ttype := JSTokenType.IDENT, identValue := "x" } : JSToken)] ++
            (List.replicate n ({ ttype := JSTokenType.CLOSEPAREN } : JSToken) ++ rest))) =
        if n < budget then Except.ok rest
        else Except.error (logErrorMessage "Stack exhausted") := by
  induction n with
  | zero =>
      intro budget rest
      cases budget with
      | zero => simp [parsePrimaryExpressionDepth]
      | succ b => simp [parsePrimaryExpressionDepth]
  | succ n ih =>
      intro budget rest
      cases budget with
      | zero => simp [parsePrimaryExpressionDepth]
      | succ b =>
          have h1 :
              List.replicate (n + 1) ({ ttype := JSTokenType.OPENPAREN } : JSToken) ++
                ([({ ttype := JSTokenType.IDENT, identValue := "x" } : JSToken)] ++
                  (List.replicate (n + 1) ({ ttype := JSTokenType.CLOSEPAREN } : JSToken) ++ rest)) =
              ({ ttype := JSTokenType.OPENPAREN } : JSToken) ::
                (List.replicate n ({ ttype := JSTokenType.OPENPAREN } : JSToken) ++
                  ([({ ttype := JSTokenType.IDENT, identValue := "x" } : JSToken)] ++
                    (List.replicate n ({ ttype := JSTokenType.CLOSEPAREN } : JSToken) ++
                      (({ ttype := JSTokenType.CLOSEPAREN } : JSToken) :: rest)))) := by
            rw [List.replicate_succ, List.replicate_succ']
            simp
          rw [h1]
          by_cases hnb : n < b
          · simp only [parsePrimaryExpressionDepth,
              ih b (({ ttype := JSTokenType.CLOSEPAREN } : JSToken) :: rest)]
            simp [hnb, Nat.succ_lt_succ_iff]
          · simp only [parsePrimaryExpressionDepth,
              ih b (({ ttype := JSTokenType.CLOSEPAREN } : JSToken) :: rest)]
            simp [hnb, Nat.succ_lt_succ_iff]

/-- Claim C8 (amended): the recursion-budget check before each nested
descent makes the parse of arbitrarily deeply nested parentheses terminate
with an error - the parse is a total function - whose message is
"Stack exhausted." (failWithStackOverflow logs "Stack exhausted" and the
error logger appends a period), whenever the budget does not exceed the
nesting depth; with sufficient budget the same input parses. -/
theorem stack_exhausted_c8_amended (n budget : Nat) :
    parsePrimaryExpressionDepth budget (nestedParens n) =
      if n < budget then Except.ok [] else Except.error "Stack exhausted." := by
  have h := parsePrimaryExpressionDepth_nested n budget []
  have hmsg : logErrorMessage "Stack exhausted" = "Stack exhausted." := by decide
  rw [hmsg] at h
  rw [← h]
  congr 1
  simp [nestedParens, List.append_assoc]

/-- Counterexample for claim C8 as stated: with recursion budget 3 and five
nested parentheses the parse returns the error "Stack exhausted." - with a
trailing period appended by the error logger - which is not the message
"Stack exhausted" the claim names. -/
theorem stack_exhausted_c8_counterexample :
    parsePrimaryExpressionDepth 3 (nestedParens 5) = Except.error "Stack exhausted." ∧
    ("Stack exhausted." : String) ≠ "Stack exhausted" := by
  constructor
  · decide
  · decide

/-- Claim C5: evaluation at the failing input.  In non-strict mode the
parameter list (a = 1, a) - a duplicate parameter in a list that contains a
default value - is accepted, because the duplicate check of
parseFormalParameters only consults the default value of the parameter
being parsed in the current iteration and the duplicate is recorded after
the defaulted parameter; the mirrored list (a, a = 1) is rejected.  This
contradicts both the claim and the comment at Parser.cpp lines 763-765,
which say a duplicate is an error whenever there are default parameter
values. -/
theorem duplicate_parameter_c5_failing_input :
    isOkResult (parseFormalParameters false none
      [ParamItem.norm false ["a"] true, ParamItem.norm false ["a"] false]) = true ∧
    isOkResult (parseFormalParameters false none
      [ParamItem.norm false ["a"] false, ParamItem.norm false ["a"] true]) = false := by
  constructor
  · decide
  · decide

/-- Claim C6: a const declaration without initializer fails in an ordinary
declaration statement and in a standard for(;;) header, and is accepted
exactly as the single loop variable of a for-in or for-of header; an
enumeration header with two declared variables fails. -/
theorem const_initializer_c6 (name name2 : String)
    (h1 : name ≠ "let") (h2 : name2 ≠ "let") (h3 : name2 ≠ name) :
    (parseVariableDeclarationList false
        { declaredVariables := [], lexicalVariables := [] }
        VarDeclarationListContext.varDeclarationContext
        DeclarationType.constDeclaration [Declarator.ident name false] =
      Except.error (logErrorMessage
        ("const declared variable \x27" ++ name ++ "\x27 must have an initializer"))) ∧
    (parseForStatementDeclarationHeader false
        { declaredVariables := [], lexicalVariables := [] }
        DeclarationType.constDeclaration [Declarator.ident name false]
        ForHeaderTail.semicolonToken =
      Except.error (logErrorMessage
        "const variables in for loops must have initializers")) ∧
    (parseForStatementDeclarationHeader false
        { declaredVariables := [], lexicalVariables := [] }
        DeclarationType.constDeclaration [Declarator.ident name false]
        ForHeaderTail.inToken = Except.ok ForLoopKind.forIn) ∧
    (parseForStatementDeclarationHeader false
        { declaredVariables := [], lexicalVariables := [] }
        DeclarationType.constDeclaration [Declarator.ident name false]
        ForHeaderTail.ofIdent = Except.ok ForLoopKind.forOf) ∧
    (parseForStatementDeclarationHeader false
        { declaredVariables := [], lexicalVariables := [] }
        DeclarationType.constDeclaration
        [Declarator.ident name false, Declarator.ident name2 false]
        ForHeaderTail.inToken =
      Except.error (logErrorMessage
        "can only declare a single variable in an enumeration")) := by
  refine ⟨?_, ?_, ?_, ?_, ?_⟩ <;>
    simp [parseVariableDeclarationList, parseVariableDeclarationListLoop,
      parseForStatementDeclarationHeader, declareVariable, h1, h2, h3]

/-- Witness for const_initializer_c6 at concrete names. -/
theorem const_initializer_c6_witness :
    parseForStatementDeclarationHeader false
        { declaredVariables := [], lexicalVariables := [] }
        DeclarationType.constDeclaration [Declarator.ident "x" false]
        ForHeaderTail.ofIdent = Except.ok ForLoopKind.forOf :=
  (((((const_initializer_c6 "x" "y" (by decide) (by decide) (by decide)).2).2).2).1)

/-- Helper for C1: after the strict-mode rewind the loop re-parses the
saved statements under strict mode, failing at the first statement that
fails on the strict pass and otherwise appending every statement after the
ones already built. -/
theorem parseSourceElementsResume_spec (mode : SourceElementsMode) :
    ∀ (items : List StmtItem) (seen : Bool) (dir : Option (String × Nat))
      (acc : List StmtItem),
      parseSourceElementsResume mode items seen dir acc =
        match firstStrictFailure items with
        | some m => Except.error m
        | none => Except.ok (acc.reverse ++ items, true) := by
  intro items
  induction items with
  | nil =>
      intro seen dir acc
      simp [parseSourceElementsResume, firstStrictFailure]
  | cons item rest ih =>
      intro seen dir acc
      simp only [parseSourceElementsResume, firstStrictFailure]
      cases h : stmtOutcome true item with
      | some m => simp
      | none => simp [ih]

/-- Helper for C1: the first-pass loop of parseSourceElements is described
by the stale-directive trigger scan: no trigger means a plain non-strict
pass; a trigger at index k means validation followed by a strict re-parse
of the saved list appended after the k statements already built. -/
theorem parseSourceElementsScan_spec (ctx : StrictContext) :
    ∀ (items save : List StmtItem) (seen : Bool) (dir : Option (String × Nat))
      (acc : List StmtItem),
      parseSourceElementsScan ctx SourceElementsMode.checkForStrictMode save items
          seen dir acc =
        match staleTriggerIndexGo items seen dir with
        | none =>
            (match firstNonStrictFailure items with
             | some m => Except.error m
             | none => Except.ok (acc.reverse ++ items, false))
        | some k =>
            (match strictModeValidationError ctx with
             | some m => Except.error m
             | none =>
                 match firstStrictFailure save with
                 | some m => Except.error m
                 | none => Except.ok (acc.reverse ++ (items.take k ++ save), true)) := by
  intro items
  induction items with
  | nil =>
      intro save seen dir acc
      simp [parseSourceElementsScan, staleTriggerIndexGo, firstNonStrictFailure]
  | cons item rest ih =>
      intro save seen dir acc
      simp only [parseSourceElementsScan, staleTriggerIndexGo, firstNonStrictFailure]
      cases h : stmtOutcome false item with
      | some m => simp
      | none =>
          simp only []
          cases hseen : seen with
          | true =>
              simp only [Bool.not_true, Bool.and_false, if_neg]
              rw [ih save true (stmtDirective item dir) (item :: acc)]
              cases hgo : staleTriggerIndexGo rest true (stmtDirective item dir) with
              | none =>
                  cases hfail : firstNonStrictFailure rest with
                  | some m => simp [hgo, hfail]
                  | none => simp [hgo, hfail]
              | some k =>
                  cases hval : strictModeValidationError ctx with
                  | some m => simp [hgo, hval]
                  | none =>
                      cases hsf : firstStrictFailure save with
                      | some m => simp [hgo, hval, hsf]
                      | none => simp [hgo, hval, hsf]
          | false =>
              cases hdir : stmtDirective item dir with
              | some vl =>
                  by_cases htrig :
                      (decide (vl.2 = lengthOfUseStrictLiteral)
                        && decide (vl.1 = "use strict")) = true
                  · rw [parseSourceElementsResume_spec]
                    cases hval : strictModeValidationError ctx with
                    | some m => simp [htrig, hval]
                    | none =>
                        cases hsf : firstStrictFailure save with
                        | some m => simp [htrig, hval, hsf]
                        | none => simp [htrig, hval, hsf]
                  · rw [ih save false (some vl) (item :: acc)]
                    cases hgo : staleTriggerIndexGo rest false (some vl) with
                    | none =>
                        cases hfail : firstNonStrictFailure rest with
                        | some m => simp [htrig, hgo, hfail]
                        | none => simp [htrig, hgo, hfail]
                    | some k =>
                        cases hval : strictModeValidationError ctx with
                        | some m => simp [htrig, hgo, hval]
                        | none =>
                            cases hsf : firstStrictFailure save with
                            | some m => simp [htrig, hgo, hval, hsf]
                            | none => simp [htrig, hgo, hval, hsf]
              | none =>
                  rw [ih save true none (item :: acc)]
                  cases hgo : staleTriggerIndexGo rest true none with
                  | none =>
                      cases hfail : firstNonStrictFailure rest with
                      | some m => simp [hgo, hfail]
                      | none => simp [hgo, hfail]
                  | some k =>
                      cases hval : strictModeValidationError ctx with
                      | some m => simp [hgo, hval]
                      | none =>
                          cases hsf : firstStrictFailure save with
                          | some m => simp [hgo, hval, hsf]
                          | none => simp [hgo, hval, hsf]

/-- Claim C1 (amended): with CheckForStrictMode, the parser flips the
enclosing scope to strict mode exactly when the stale-directive scan finds
a string-literal statement of original literal length 12 and interned value
"use strict" while no non-directive statement has been registered - where
let/const/class statement-list items are never registered as non-directive
statements and leave the previously seen directive in place, because only
statements routed through parseStatement reset the directive out parameter;
a literal with an escape or line continuation (original length different
from 12) never triggers.  Upon setting strict the parser validates the
accumulated constraints, failing with a semantic error naming a prior
function or variable called eval or arguments, and, if valid, restores to
the save point taken at the start of the source-element list and re-parses
the body under strict mode (appending after the statements already built,
and failing at the first statement invalid on the re-parse). -/
theorem use_strict_c1_amended (ctx : StrictContext) (items : List StmtItem) :
    parseSourceElements ctx SourceElementsMode.checkForStrictMode items =
      match staleTriggerIndex items with
      | none =>
          (match firstNonStrictFailure items with
           | some m => Except.error m
           | none => Except.ok (items, false))
      | some k =>
          (match strictModeValidationError ctx with
           | some m => Except.error m
           | none =>
               match firstStrictFailure items with
               | some m => Except.error m
               | none => Except.ok (items.take k ++ items, true)) := by
  have h := parseSourceElementsScan_spec ctx items items false none []
  simpa [parseSourceElements, staleTriggerIndex] using h

/-- Counterexample for claim C1 as stated: in the list

  "x"; let-item; "use strict";

the "use strict" literal is not in the directive prologue (the prologue is
just the first string literal), so by the claim strict mode must not flip
and the non-strict parse - in which each of the three items parses -
succeeds.  The code still flips: the let-item is handled by the LET case of
parseStatementListItem, which does not reset the directive out parameter
and does not register a non-directive statement, so the parser triggers on
the later literal, rewinds, and the strict re-parse fails when the let
declaration collides with its own first-pass binding. -/
theorem use_strict_c1_counterexample :
    directivePrologueTriggersStrict
        [StmtItem.stringLiteralStmt "x" 3,
         StmtItem.letLikeStmt (some "Cannot declare a let variable twice: \x27a\x27."),
         StmtItem.stringLiteralStmt "use strict" 12] = false ∧
    firstNonStrictFailure
        [StmtItem.stringLiteralStmt "x" 3,
         StmtItem.letLikeStmt (some "Cannot declare a let variable twice: \x27a\x27."),
         StmtItem.stringLiteralStmt "use strict" 12] = none ∧
    parseSourceElements
        { lastFunctionName := none, declaredVariables := [], isValidStrictMode := true }
        SourceElementsMode.checkForStrictMode
        [StmtItem.stringLiteralStmt "x" 3,
         StmtItem.letLikeStmt (some "Cannot declare a let variable twice: \x27a\x27."),
         StmtItem.stringLiteralStmt "use strict" 12] =
      Except.error "Cannot declare a let variable twice: \x27a\x27." := by
  refine ⟨by decide, by decide, by decide⟩

/-- Helper for C2/C3: the cache returned by the after-body phase is the
input cache with one entry keyed by the function start offset added exactly
when the phase succeeded and the capability, cache presence and length
conditions hold, the entry being built from the returned function
metadata. -/
theorem parseFunctionInfoAfterBody_cache_spec (caps : TreeBuilderCaps)
    (cache : FunctionCache) (inp : FnParseInput) (fs : Bool) (body : BodyOutcome)
    (fbt : FunctionBodyType) (name : Option String) (pc : Nat)
    (ck : ConstructorKind) (esb : SuperBinding) :
    (parseFunctionInfoAfterBody caps cache inp fs body fbt name pc ck esb).2 =
      (match (parseFunctionInfoAfterBody caps cache inp fs body fbt name pc ck esb).1 with
       | Except.ok fi =>
           if fi.fromCache = false ∧ caps.canUseFunctionCache = true ∧
               inp.hasFunctionCache = true ∧
               ((fi.endOffset : Int) - (inp.startOffset : Int) >
                 minimumFunctionLengthToCache fi.bodyType) then
             (inp.startOffset,
               { endFunctionOffset := fi.endOffset,
                 parameterCount := fi.parameterCount,
                 strictMode := fi.strictBody,
                 isBodyArrowExpression :=
                   fi.bodyType = FunctionBodyType.arrowFunctionBodyExpression }) :: cache
           else cache
       | Except.error _ => cache) := by
  simp only [parseFunctionInfoAfterBody]
  repeat' split <;>
    (try simp_all [minimumFunctionLengthToCache]) <;> (try omega)

/-- Helper for C3: the result component of the after-body phase does not
depend on the tree-builder capabilities (only the recorded cache entry
does). -/
theorem parseFunctionInfoAfterBody_result_caps (caps1 caps2 : TreeBuilderCaps)
    (cache : FunctionCache) (inp : FnParseInput) (fs : Bool) (body : BodyOutcome)
    (fbt : FunctionBodyType) (name : Option String) (pc : Nat)
    (ck : ConstructorKind) (esb : SuperBinding) :
    (parseFunctionInfoAfterBody caps1 cache inp fs body fbt name pc ck esb).1 =
      (parseFunctionInfoAfterBody caps2 cache inp fs body fbt name pc ck esb).1 := by
  simp only [parseFunctionInfoAfterBody]
  repeat' split <;> simp_all

/-- Claim C4 (amended): every scope pushed during parsing is popped again
on every exit path - parseFunctionInfo returns the scope stack it received
on the cache-hit path, on every error path (the AutoPopScopeRef destructor)
and on success, also when the extra generator body scope was pushed - while
the single scope pushed by the Parser constructor is never popped, so a
whole parse finishes with exactly that initial scope on the stack. -/
theorem scope_balance_c4_amended :
    (∀ (caps : TreeBuilderCaps) (cache : FunctionCache) (stack : List Scope)
        (inp : FnParseInput),
      (parseFunctionInfo caps cache stack inp).scopeStack = stack) ∧
    (∀ (pm : SourceParseMode) (sp : Bool) (ctx : StrictContext)
        (mode : SourceElementsMode) (items : List StmtItem),
      (parserConstructAndParse pm sp ctx mode items).2.length = 1) := by
  constructor
  · intro caps cache stack inp
    simp only [parseFunctionInfo]
    repeat' split <;> (try simp)
  · intro pm sp ctx mode items
    simp [parserConstructAndParse]

/-- Counterexample for claim C4 as stated: a successful whole parse of an
empty program finishes with the constructor scope still on the stack - the
scope stack is not empty. -/
theorem scope_balance_c4_counterexample :
    (parserConstructAndParse SourceParseMode.programMode false
        { lastFunctionName := none, declaredVariables := [], isValidStrictMode := true }
        SourceElementsMode.checkForStrictMode []).1 = Except.ok ([], false) ∧
    (parserConstructAndParse SourceParseMode.programMode false
        { lastFunctionName := none, declaredVariables := [], isValidStrictMode := true }
        SourceElementsMode.checkForStrictMode []).2 ≠ [] := by
  constructor
  · decide
  · decide

/-- Claim C2 (amended): a parseFunctionInfo run leaves the function cache
unchanged on errors and on cache hits, and after fully parsing a function
body without a cache hit it records exactly one new entry, keyed by the
function start offset and built from the parsed function metadata, exactly
when the tree builder has the CanUseFunctionCache capability, the parser
has a function cache, and the body length (end offset minus start offset)
exceeds 16 characters for standard function block bodies and 8 characters
for arrow-function bodies - both arrow-expression bodies and arrow block
bodies. -/
theorem function_cache_record_c2_amended (caps : TreeBuilderCaps)
    (cache : FunctionCache) (stack : List Scope) (inp : FnParseInput) :
    (parseFunctionInfo caps cache stack inp).functionCache =
      (match (parseFunctionInfo caps cache stack inp).result with
       | Except.ok fi =>
           if fi.fromCache = false ∧ caps.canUseFunctionCache = true ∧
               inp.hasFunctionCache = true ∧
               ((fi.endOffset : Int) - (inp.startOffset : Int) >
                 minimumFunctionLengthToCache fi.bodyType) then
             (inp.startOffset,
               { endFunctionOffset := fi.endOffset,
                 parameterCount := fi.parameterCount,
                 strictMode := fi.strictBody,
                 isBodyArrowExpression :=
                   fi.bodyType = FunctionBodyType.arrowFunctionBodyExpression }) :: cache
           else cache
       | Except.error _ => cache) := by
  simp only [parseFunctionInfo]
  repeat' split <;> try simp [parseFunctionInfoAfterBody_cache_spec]

/-- Counterexample for claim C2 as stated: an arrow function with a block
body of length 10 records a cache entry (the source threshold for any
arrow body is 8), although under the claim a block body is cached only
beyond 16 characters, so no entry should be recorded at this input. -/
theorem function_cache_record_c2_counterexample :
    (parseFunctionInfo fullBuilderCaps [] [] arrowBlockFunctionInput).result =
      Except.ok
        { name := none, parameterCount := 1, startOffset := 0, endOffset := 10,
          bodyType := FunctionBodyType.arrowFunctionBodyBlock,
          strictBody := false, fromCache := false } ∧
    (parseFunctionInfo fullBuilderCaps [] [] arrowBlockFunctionInput).functionCache =
      [(0, { endFunctionOffset := 10, parameterCount := 1, strictMode := false,
             isBodyArrowExpression := false })] ∧
    ¬(((10 : Int) - (0 : Int)) >
        claimMinimumFunctionLengthToCache FunctionBodyType.arrowFunctionBodyBlock) := by
  refine ⟨by decide, by decide, by decide⟩

/-- Helper for C3: parseFunctionInfo ignores the CreatesAST capability, and
with the cache capability off the createsAST flag is irrelevant, so any
capability record with CanUseFunctionCache = false behaves like the
syntax-only builder capabilities. -/
theorem parseFunctionInfo_cacheOff_eq_checker (c : Bool) (cache : FunctionCache)
    (stack : List Scope) (inp : FnParseInput) :
    parseFunctionInfo { createsAST := c, canUseFunctionCache := false } cache stack inp =
      parseFunctionInfo checkerBuilderCaps cache stack inp := by
  cases c <;> rfl

/-- Claim C3: for identical inputs and parser state, the error/no-error
verdict (and the error message) of the embedded parseFunctionInfo fragment
does not depend on the tree-builder capabilities, provided every cache
entry at this start offset is sound - it describes what a fresh parse of
the same function yields (which holds for entries the parser itself
recorded).  In particular the full AST builder and the syntax-only builder
agree on the verdict and message. -/
theorem builder_agnostic_c3 (caps1 caps2 : TreeBuilderCaps)
    (cache : FunctionCache) (stack : List Scope) (inp : FnParseInput)
    (h : CacheSound cache stack inp) :
    fnVerdict (parseFunctionInfo caps1 cache stack inp) =
      fnVerdict (parseFunctionInfo caps2 cache stack inp) := by
  obtain ⟨a, u1⟩ := caps1
  obtain ⟨c, u2⟩ := caps2
  have key : ∀ (x : Bool),
      fnVerdict (parseFunctionInfo { createsAST := x, canUseFunctionCache := true }
        cache stack inp) =
      fnVerdict (parseFunctionInfo checkerBuilderCaps cache stack inp) := by
    intro x
    cases hfind : cacheFind cache inp.startOffset with
    | none =>
        simp only [parseFunctionInfo, checkerBuilderCaps]
        cases hpre : parseFunctionInfoPreamble
            ({ newScope stack.head? with sourceParseMode := inp.mode }).strictMode inp with
        | error e => rfl
        | ok tup =>
            obtain ⟨fbt, name, pc, ck, esb⟩ := tup
            simp only [hfind, if_true, Bool.false_eq_true, if_false]
            by_cases hm : inp.mode = SourceParseMode.generatorWrapperFunctionMode
            · simp only [hm, if_true, eq_self_iff_true, if_pos]
              cases hbody : inp.bodyResult with
              | error e => rfl
              | ok body =>
                  by_cases hds : body.hasDirectSuper = true
                  · simp [hds]
                  · by_cases hnsb : (body.needsSuperBinding
                        && decide (esb = SuperBinding.notNeeded)) = true
                    · simp [hds, hnsb]
                    · simp [hds, hnsb, fnVerdict,
                        parseFunctionInfoAfterBody_result_caps
                          { createsAST := x, canUseFunctionCache := true }
                          { createsAST := false, canUseFunctionCache := false }]
            · simp only [hm, if_false]
              cases hbody : inp.bodyResult with
              | error e => rfl
              | ok body =>
                  simp [fnVerdict,
                    parseFunctionInfoAfterBody_result_caps
                      { createsAST := x, canUseFunctionCache := true }
                      { createsAST := false, canUseFunctionCache := false }]
    | some e =>
        obtain ⟨fi, hfi, hrest⟩ := h e hfind
        have hver : fnVerdict (parseFunctionInfo checkerBuilderCaps cache stack inp) =
            Except.ok () := by
          simp [fnVerdict, hfi]
        rw [hver]
        have hres := hfi
        simp only [parseFunctionInfo, checkerBuilderCaps] at hres ⊢
        cases hpre : parseFunctionInfoPreamble
            ({ newScope stack.head? with sourceParseMode := inp.mode }).strictMode inp with
        | error e2 =>
            rw [hpre] at hres
            simp at hres
        | ok tup =>
            obtain ⟨fbt, name, pc, ck, esb⟩ := tup
            simp [hfind, fnVerdict]
  cases u1 with
  | true =>
      cases u2 with
      | true =>
          rw [key a, key c]
      | false =>
          rw [key a, parseFunctionInfo_cacheOff_eq_checker c]
  | false =>
      cases u2 with
      | true =>
          rw [key c, parseFunctionInfo_cacheOff_eq_checker a]
      | false =>
          rw [parseFunctionInfo_cacheOff_eq_checker a,
            parseFunctionInfo_cacheOff_eq_checker c]

/-- Witness for builder_agnostic_c3: with an empty cache (vacuously sound)
the full builder and the syntax-only builder produce the same verdict on
the concrete arrow-function input. -/
theorem builder_agnostic_c3_witness :
    fnVerdict (parseFunctionInfo fullBuilderCaps [] [] arrowBlockFunctionInput) =
      fnVerdict (parseFunctionInfo checkerBuilderCaps [] [] arrowBlockFunctionInput) :=
  builder_agnostic_c3 fullBuilderCaps checkerBuilderCaps [] [] arrowBlockFunctionInput
    (by intro e he; simp [cacheFind] at he)

end JSC
